import Mathlib

/-!
Shallow embedding of `hpsahba` (src/main.c): construction of vendor BMIC
passthrough command envelopes, the transport error dump, response decoding
(byte-order normalization, string trimming) and the info report, plus the
CLI driver's control flow.

C machine integers are modelled as `Nat` with explicit `% 2^w` truncation
where a narrowing store occurs; `assert()` failures and fatal `exit(1)`
paths are modelled as `Option`/`Except` error values carrying the text the
program writes to the error stream.

The repository's header `hpsa.h` and the kernel header `cciss_ioctl.h` are
not part of the given sources; the constants and record shapes they provide
are modelled from the spec and marked as such.
-/

/-- Modelled from the spec: the identify-controller vendor opcode
(`BMIC_IDENTIFY_CONTROLLER`, from the missing header `hpsa.h`); the exact
byte value is irrelevant to every claim, only that the recognized opcode
set has exactly two distinct members. -/
def BMIC_IDENTIFY_CONTROLLER : Nat := 0x11

/-- Modelled from the spec: the sense-controller-parameters vendor opcode
(`BMIC_SENSE_CONTROLLER_PARAMETERS`, from the missing header `hpsa.h`). -/
def BMIC_SENSE_CONTROLLER_PARAMETERS : Nat := 0x64

/-- Modelled from the spec: CDB byte 0 value for read-direction BMIC
commands (`BMIC_READ`, from the missing header `hpsa.h`). -/
def BMIC_READ : Nat := 0x26

/-- Modelled from the spec: CDB byte 0 value for write-direction BMIC
commands (`BMIC_WRITE`, from the missing header `hpsa.h`). -/
def BMIC_WRITE : Nat := 0x27

/-- Modelled from the spec: write transfer direction (`XFER_WRITE`, from the
missing kernel header `cciss_ioctl.h`). -/
def XFER_WRITE : Nat := 0x01

/-- Modelled from the spec: read transfer direction (`XFER_READ`, from the
missing kernel header `cciss_ioctl.h`). -/
def XFER_READ : Nat := 0x02

/-- Modelled from the spec: "simple command" command type (`TYPE_CMD`, from
the missing kernel header `cciss_ioctl.h`). -/
def TYPE_CMD : Nat := 0x00

/-- Modelled from the spec: "simple" attribute (`ATTR_SIMPLE`, from the
missing kernel header `cciss_ioctl.h`). -/
def ATTR_SIMPLE : Nat := 0x04

/-- Modelled from the spec: physical capacity of the sense-data buffer in
`ErrorInfo_struct` (`SENSEINFOBYTES`, from the missing kernel header
`cciss_ioctl.h`); "sense length is clamped to the sense buffer's physical
capacity before being read". -/
def SENSEINFOBYTES : Nat := 32

/-- `UINT16_MAX` from `<stdint.h>`. -/
def UINT16_MAX : Nat := 65535

/-- The `Type` sub-record of the request block (`cciss_ioctl.h`); the C
field `Type.Type` is modelled as `typeField` because `Type` is reserved in
Lean. All members are bytes. -/
structure RequestType_struct where
  typeField : Nat
  Attribute : Nat
  Direction : Nat

/-- The request block of the passthrough envelope (`cciss_ioctl.h`):
descriptor length, type triple, timeout, and the 16-byte command descriptor
block, modelled as a function from `Fin 16` to byte values. -/
structure RequestBlock_struct where
  CDBLen : Nat
  typeInfo : RequestType_struct
  Timeout : Nat
  CDB : Fin 16 → Nat

/-- The status/error record embedded in the envelope (`cciss_ioctl.h`),
populated by the transport on return. `SenseInfo` physically holds
`SENSEINFOBYTES` bytes. -/
structure ErrorInfo_struct where
  ScsiStatus : Nat
  SenseLen : Nat
  CommandStatus : Nat
  ResidualCnt : Nat
  SenseInfo : List Nat

/-- The passthrough command envelope (`IOCTL_Command_struct` from
`cciss_ioctl.h`): request block, embedded error record, buffer size and
buffer pointer (the pointer is modelled as an opaque numeric id). -/
structure IOCTL_Command_struct where
  Request : RequestBlock_struct
  error_info : ErrorInfo_struct
  buf_size : Nat
  buf : Nat

/-- The zero-initialized envelope, as produced by `IOCTL_Command_struct
cmd = {0};` in `really_exec_cmd`. -/
def zeroCmd : IOCTL_Command_struct :=
  { Request :=
      { CDBLen := 0
        typeInfo := { typeField := 0, Attribute := 0, Direction := 0 }
        Timeout := 0
        CDB := fun _ => 0 }
    error_info :=
      { ScsiStatus := 0, SenseLen := 0, CommandStatus := 0, ResidualCnt := 0
        SenseInfo := List.replicate SENSEINFOBYTES 0 }
    buf_size := 0
    buf := 0 }

/-- C `set_cdb_buf_size` (src/main.c:108): `assert(size <= UINT16_MAX)`
(assertion failure modelled as `none`), then `cdb[7] = size >> 8;
cdb[8] = size & 0xFF;`. The stores truncate to a byte, as the `uint8_t`
array assignment does. -/
def set_cdb_buf_size (cdb : Fin 16 → Nat) (size : Nat) : Option (Fin 16 → Nat) :=
  if size ≤ UINT16_MAX then
    some (Function.update (Function.update cdb 7 ((size >>> 8) % 256)) 8
      ((size &&& 0xFF) % 256))
  else
    none

/-- C `set_cmd_buf` (src/main.c:115): encodes the size into the CDB and
stores the buffer size and pointer in the envelope. -/
def set_cmd_buf (cmd : IOCTL_Command_struct) (buf size : Nat) :
    Option IOCTL_Command_struct :=
  (set_cdb_buf_size cmd.Request.CDB size).map fun cdb =>
    { cmd with
      Request := { cmd.Request with CDB := cdb }
      buf_size := size
      buf := buf }

/-- C `fill_cmd` (src/main.c:123): switch over the recognized opcodes
(`assert(0)` on any other opcode, modelled as `none`), store the opcode in
CDB byte 6, set the read or write directive from the static
opcode→direction mapping (`direction_write` stays 0 for both recognized
opcodes), encode buffer size/pointer via `set_cmd_buf`, and fix descriptor
length 10, type `TYPE_CMD`, attribute `ATTR_SIMPLE` and timeout 0. -/
def fill_cmd (cmd : IOCTL_Command_struct) (cmd_num : Nat) (buf size : Nat) :
    Option IOCTL_Command_struct :=
  if cmd_num = BMIC_IDENTIFY_CONTROLLER ∨
      cmd_num = BMIC_SENSE_CONTROLLER_PARAMETERS then
    let direction_write := false
    let cmd1 := { cmd with
      Request := { cmd.Request with
        CDB := Function.update cmd.Request.CDB 6 (cmd_num % 256) } }
    let cmd2 :=
      if direction_write then
        { cmd1 with
          Request := { cmd1.Request with
            CDB := Function.update cmd1.Request.CDB 0 (BMIC_WRITE % 256)
            typeInfo := { cmd1.Request.typeInfo with Direction := XFER_WRITE } } }
      else
        { cmd1 with
          Request := { cmd1.Request with
            CDB := Function.update cmd1.Request.CDB 0 (BMIC_READ % 256)
            typeInfo := { cmd1.Request.typeInfo with Direction := XFER_READ } } }
    (set_cmd_buf cmd2 buf size).map fun cmd3 =>
      { cmd3 with
        Request := { cmd3.Request with
          CDBLen := 10
          typeInfo := { cmd3.Request.typeInfo with
            typeField := TYPE_CMD
            Attribute := ATTR_SIMPLE }
          Timeout := 0 } }
  else
    none

/-- Closed form of `fill_cmd` on a recognized opcode within the size
bound: the resulting envelope spelled out field by field. -/
theorem fill_cmd_eq_some (cmd : IOCTL_Command_struct) (cmd_num buf size : Nat)
    (hop : cmd_num = BMIC_IDENTIFY_CONTROLLER ∨
      cmd_num = BMIC_SENSE_CONTROLLER_PARAMETERS)
    (hsize : size ≤ UINT16_MAX) :
    fill_cmd cmd cmd_num buf size = some
      { Request :=
          { CDBLen := 10
            typeInfo :=
              { typeField := TYPE_CMD, Attribute := ATTR_SIMPLE
                Direction := XFER_READ }
            Timeout := 0
            CDB := Function.update (Function.update (Function.update
              (Function.update cmd.Request.CDB 6 (cmd_num % 256)) 0
              (BMIC_READ % 256)) 7 ((size >>> 8) % 256)) 8
              ((size &&& 0xFF) % 256) }
        error_info := cmd.error_info
        buf_size := size
        buf := buf } := by
  rcases hop with h | h <;> subst h <;>
    simp [fill_cmd, set_cmd_buf, set_cdb_buf_size, hsize]

/-- **C1.** For every call of the command builder with a recognized opcode
(identify-controller or sense-controller-parameters), a buffer pointer, and
a buffer size (within the builder's 16-bit size constraint), the resulting
command envelope has the opcode stored in descriptor byte 6, the read
directive set (`BMIC_READ` in descriptor byte 0 and transfer direction
`XFER_READ`), descriptor length 10, command type `TYPE_CMD`, attribute
`ATTR_SIMPLE`, timeout 0, and the buffer pointer and size stored in the
envelope. -/
theorem fill_cmd_recognized_fields (cmd : IOCTL_Command_struct)
    (cmd_num buf size : Nat)
    (hop : cmd_num = BMIC_IDENTIFY_CONTROLLER ∨
      cmd_num = BMIC_SENSE_CONTROLLER_PARAMETERS)
    (hsize : size ≤ UINT16_MAX) :
    ∃ c, fill_cmd cmd cmd_num buf size = some c ∧
      c.Request.CDB 6 = cmd_num ∧
      c.Request.CDB 0 = BMIC_READ ∧
      c.Request.typeInfo.Direction = XFER_READ ∧
      c.Request.CDBLen = 10 ∧
      c.Request.typeInfo.typeField = TYPE_CMD ∧
      c.Request.typeInfo.Attribute = ATTR_SIMPLE ∧
      c.Request.Timeout = 0 ∧
      c.buf = buf ∧
      c.buf_size = size := by
  have hlt : cmd_num % 256 = cmd_num := by
    rcases hop with h | h <;> subst h <;> decide
  refine ⟨_, fill_cmd_eq_some cmd cmd_num buf size hop hsize,
    ?_, ?_, ?_, ?_, ?_, ?_, ?_, ?_, ?_⟩ <;>
    simp [Function.update_apply, hlt, BMIC_READ]

/-- Closed witness for `fill_cmd_recognized_fields` at the identify opcode,
buffer id 5, size 404. -/
theorem fill_cmd_recognized_fields_witness :
    ∃ c, fill_cmd zeroCmd BMIC_IDENTIFY_CONTROLLER 5 404 = some c ∧
      c.Request.CDB 6 = BMIC_IDENTIFY_CONTROLLER ∧
      c.Request.CDB 0 = BMIC_READ ∧
      c.Request.typeInfo.Direction = XFER_READ ∧
      c.Request.CDBLen = 10 ∧
      c.Request.typeInfo.typeField = TYPE_CMD ∧
      c.Request.typeInfo.Attribute = ATTR_SIMPLE ∧
      c.Request.Timeout = 0 ∧
      c.buf = 5 ∧
      c.buf_size = 404 :=
  fill_cmd_recognized_fields zeroCmd BMIC_IDENTIFY_CONTROLLER 5 404
    (Or.inl rfl) (by decide)

/-- **C2.** For every buffer size at most `2^16 - 1`, building a command
stores the size big-endian in descriptor bytes 7 (high byte) and 8 (low
byte), so recombining those two bytes as a big-endian 16-bit integer
yields the original buffer size. -/
theorem set_cdb_buf_size_bigendian_roundtrip (cdb : Fin 16 → Nat) (size : Nat)
    (hsize : size ≤ UINT16_MAX) :
    ∃ cdb2, set_cdb_buf_size cdb size = some cdb2 ∧
      cdb2 7 = size / 256 ∧
      cdb2 8 = size % 256 ∧
      256 * cdb2 7 + cdb2 8 = size := by
  have hle : size ≤ 65535 := hsize
  have hsh : size >>> 8 = size / 2 ^ 8 := Nat.shiftRight_eq_div_pow size 8
  have hand : size &&& 255 = size % 2 ^ 8 := Nat.and_pow_two_sub_one_eq_mod size 8
  refine ⟨Function.update (Function.update cdb 7 ((size >>> 8) % 256)) 8
    ((size &&& 0xFF) % 256), by simp [set_cdb_buf_size, hsize], ?_, ?_, ?_⟩ <;>
    simp [Function.update_apply] <;> omega

/-- Closed witness for `set_cdb_buf_size_bigendian_roundtrip` at
size 0xABCD on the zero CDB. -/
theorem set_cdb_buf_size_bigendian_roundtrip_witness :
    ∃ cdb2, set_cdb_buf_size (fun _ => 0) 0xABCD = some cdb2 ∧
      cdb2 7 = 0xABCD / 256 ∧
      cdb2 8 = 0xABCD % 256 ∧
      256 * cdb2 7 + cdb2 8 = 0xABCD :=
  set_cdb_buf_size_bigendian_roundtrip (fun _ => 0) 0xABCD (by decide)

/-- **C9.** The recognized opcode set has exactly the two values
identify-controller and sense-controller-parameters: for either of them
(with the size within the 16-bit bound) the command builder's
assertion-failure branch is not taken and a command is produced; for every
opcode outside that set the builder aborts via assertion (`none`), and the
buffer-size assertion in `set_cdb_buf_size` holds exactly when the size is
at most `2^16 - 1`. -/
theorem fill_cmd_assertion_discipline :
    (∀ cdb size, (set_cdb_buf_size cdb size).isSome = true ↔ size ≤ UINT16_MAX) ∧
    (∀ cmd cmd_num buf size,
      (cmd_num = BMIC_IDENTIFY_CONTROLLER ∨
        cmd_num = BMIC_SENSE_CONTROLLER_PARAMETERS) →
      size ≤ UINT16_MAX →
      (fill_cmd cmd cmd_num buf size).isSome = true) ∧
    (∀ cmd cmd_num buf size,
      cmd_num ≠ BMIC_IDENTIFY_CONTROLLER →
      cmd_num ≠ BMIC_SENSE_CONTROLLER_PARAMETERS →
      fill_cmd cmd cmd_num buf size = none) := by
  refine ⟨fun cdb size => ?_, fun cmd cmd_num buf size hop hsize => ?_,
    fun cmd cmd_num buf size h1 h2 => ?_⟩
  · by_cases h : size ≤ UINT16_MAX <;> simp [set_cdb_buf_size, h]
  · rcases hop with h | h <;> subst h <;>
      simp [fill_cmd, set_cmd_buf, set_cdb_buf_size, hsize,
        BMIC_IDENTIFY_CONTROLLER, BMIC_SENSE_CONTROLLER_PARAMETERS]
  · simp [fill_cmd, h1, h2]

/-- Closed witness for `fill_cmd_assertion_discipline`: the size assertion
at 70000 (out of bounds) and 12 (in bounds), a recognized build, and an
unrecognized opcode (0x99) aborting. -/
theorem fill_cmd_assertion_discipline_witness :
    ((set_cdb_buf_size (fun _ => 0) 70000).isSome = true ↔ 70000 ≤ UINT16_MAX) ∧
    (fill_cmd zeroCmd BMIC_SENSE_CONTROLLER_PARAMETERS 0 12).isSome = true ∧
    fill_cmd zeroCmd 0x99 0 12 = none :=
  ⟨fill_cmd_assertion_discipline.1 (fun _ => 0) 70000,
    fill_cmd_assertion_discipline.2.1 zeroCmd BMIC_SENSE_CONTROLLER_PARAMETERS 0 12
      (Or.inr rfl) (by decide),
    fill_cmd_assertion_discipline.2.2 zeroCmd 0x99 0 12 (by decide) (by decide)⟩

/-- `le32toh` (from `<endian.h>`) applied to a 4-byte little-endian field,
modelled on the field's wire bytes: byte 0 is least significant. -/
def le32toh (b : List Nat) : Nat :=
  b.getD 0 0 + 2 ^ 8 * b.getD 1 0 + 2 ^ 16 * b.getD 2 0 + 2 ^ 24 * b.getD 3 0

/-- Modelled from the spec: the single designated HBA-mode-supported bit in
the capability flags (`YET_MORE_CTLR_FLAG_HBA_MODE_SUPP`, from the missing
header `hpsa.h`); modelled as bit 25, a single set bit. -/
def YET_MORE_CTLR_FLAG_HBA_MODE_SUPP : Nat := 2 ^ 25

/-- The bit index of `YET_MORE_CTLR_FLAG_HBA_MODE_SUPP`. -/
def HBA_MODE_SUPP_BIT : Nat := 25

/-- `struct bmic_identify_controller` (from the missing header `hpsa.h`),
modelled from the spec: fixed-width space-padded string fields as character
lists, 32-bit little-endian integer fields as their 4 wire bytes. -/
structure bmic_identify_controller where
  vendor_id : List Char
  product_id : List Char
  board_id : List Nat
  running_firm_rev : List Char
  rom_firm_rev : List Char
  rec_rom_inactive_rev : List Char
  yet_more_controller_flags : List Nat

/-- `struct bmic_controller_parameters` (from the missing header `hpsa.h`),
modelled from the spec: software and hardware name string fields. -/
structure bmic_controller_parameters where
  software_name : List Char
  hardware_name : List Char

/-- C `is_hba_mode_supported` (src/main.c:212): convert the capability
flags from little-endian wire order to host order, mask with the designated
bit, return 1 if nonzero else 0. -/
def is_hba_mode_supported (controller_id : bmic_identify_controller) : Nat :=
  let f := le32toh controller_id.yet_more_controller_flags
  if f &&& YET_MORE_CTLR_FLAG_HBA_MODE_SUPP ≠ 0 then 1 else 0

/-- **C4.** For every capability-flags value, `is_hba_mode_supported`
converts the flags field from little-endian wire order to host order and
returns 1 if and only if the designated HBA-mode-supported bit is set and 0
otherwise, independent of the state of every other bit: the result is a
function of bit `HBA_MODE_SUPP_BIT` of the host-order value alone. -/
theorem is_hba_mode_supported_testBit (controller_id : bmic_identify_controller) :
    is_hba_mode_supported controller_id =
      if (le32toh controller_id.yet_more_controller_flags).testBit
          HBA_MODE_SUPP_BIT then 1 else 0 := by
  show (if le32toh controller_id.yet_more_controller_flags &&& 2 ^ 25 ≠ 0
      then 1 else 0) =
    if (le32toh controller_id.yet_more_controller_flags).testBit 25 then 1 else 0
  simp only [Nat.and_two_pow]
  rcases h : (le32toh controller_id.yet_more_controller_flags).testBit 25 <;>
    simp [h]

/-- C `isspace` from `<ctype.h>` in the default locale: space, horizontal
tab, line feed, vertical tab, form feed, carriage return. -/
def isspaceC (c : Char) : Bool :=
  c = ' ' || c = '\t' || c = '\n' || c = Char.ofNat 11 || c = Char.ofNat 12 ||
    c = '\r'

/-- C `trim` (src/main.c:226) on the character list of a null-free C
string: advance past the leading whitespace run, then overwrite the
trailing whitespace run of the remainder with terminators (drop it). -/
def trimChars (s : List Char) : List Char :=
  ((s.dropWhile isspaceC).reverse.dropWhile isspaceC).reverse

/-- C `trim` at the string level. -/
def trim (s : String) : String := String.mk (trimChars s.data)

/-- `dropWhile` is idempotent. -/
theorem dropWhile_dropWhile (p : α → Bool) (l : List α) :
    (l.dropWhile p).dropWhile p = l.dropWhile p := by
  induction l with
  | nil => rfl
  | cons a t ih =>
    by_cases h : p a <;> simp [List.dropWhile_cons, h, ih]

/-- The reverse of a suffix is a prefix of the reverse. -/
theorem reverse_of_suffix {x y : List α} (h : x <:+ y) :
    x.reverse <+: y.reverse := by
  rcases h with ⟨t, ht⟩
  exact ⟨t.reverse, by rw [← List.reverse_append, ht]⟩

/-- A front segment of a list already free of a leading `p`-run is itself
free of a leading `p`-run. -/
theorem dropWhile_eq_self_of_front (p : α → Bool) {l t : List α}
    (hl : l.dropWhile p = l) (ht : t <+: l) : t.dropWhile p = t := by
  cases t with
  | nil => rfl
  | cons a t2 =>
    have ha : ¬ p a = true := by
      intro hpa
      rcases ht with ⟨r, hr⟩
      have h2 : l.dropWhile p = (t2 ++ r).dropWhile p := by
        rw [← hr]
        simp [List.dropWhile_cons, hpa]
      have hlen : (l.dropWhile p).length ≤ (t2 ++ r).length := by
        rw [h2]
        exact (List.dropWhile_suffix p).length_le
      rw [hl, ← hr] at hlen
      have hlen2 : (t2 ++ r).length + 1 ≤ (t2 ++ r).length := by
        simp only [List.cons_append, List.length_cons] at hlen
        exact hlen
      omega
    simp [List.dropWhile_cons, ha]

/-- The result of `trimChars` carries no leading whitespace. -/
theorem trimChars_dropWhile (l : List Char) :
    (trimChars l).dropWhile isspaceC = trimChars l := by
  have hpre : ((l.dropWhile isspaceC).reverse.dropWhile isspaceC).reverse
      <+: (l.dropWhile isspaceC).reverse.reverse :=
    reverse_of_suffix (List.dropWhile_suffix isspaceC)
  rw [List.reverse_reverse] at hpre
  exact dropWhile_eq_self_of_front isspaceC (dropWhile_dropWhile isspaceC l) hpre

/-- `trimChars` is idempotent. -/
theorem trimChars_trimChars (l : List Char) :
    trimChars (trimChars l) = trimChars l := by
  have h2 : (trimChars l).reverse
      = (l.dropWhile isspaceC).reverse.dropWhile isspaceC := by
    unfold trimChars
    rw [List.reverse_reverse]
  calc trimChars (trimChars l)
      = (((trimChars l).dropWhile isspaceC).reverse.dropWhile isspaceC).reverse :=
        rfl
    _ = ((trimChars l).reverse.dropWhile isspaceC).reverse := by
        rw [trimChars_dropWhile]
    _ = (((l.dropWhile isspaceC).reverse.dropWhile isspaceC).dropWhile
          isspaceC).reverse := by
        rw [h2]
    _ = ((l.dropWhile isspaceC).reverse.dropWhile isspaceC).reverse := by
        rw [dropWhile_dropWhile]
    _ = trimChars l := rfl

/-- **C5.** The trim operation is idempotent: trimming the result of
trimming yields the same string as trimming once; every string consisting
only of whitespace characters trims to the empty string; and trim removes
only a contiguous leading and a contiguous trailing whitespace run, with no
internal change: the original string splits as an all-whitespace prefix,
the trimmed string, and an all-whitespace suffix. -/
theorem trim_idempotent_and_shape :
    (∀ s : String, trim (trim s) = trim s) ∧
    (∀ s : String, (∀ c ∈ s.data, isspaceC c = true) → trim s = "") ∧
    (∀ s : String, ∃ pre post, s.data = pre ++ (trim s).data ++ post ∧
      (∀ c ∈ pre, isspaceC c = true) ∧ (∀ c ∈ post, isspaceC c = true)) := by
  refine ⟨fun s => ?_, fun s h => ?_, fun s => ?_⟩
  · exact congrArg String.mk (trimChars_trimChars s.data)
  · have h1 : s.data.dropWhile isspaceC = [] := by
      rw [List.dropWhile_eq_nil_iff]
      exact h
    show String.mk (trimChars s.data) = ""
    unfold trimChars
    rw [h1]
    rfl
  · refine ⟨s.data.takeWhile isspaceC,
      ((s.data.dropWhile isspaceC).reverse.takeWhile isspaceC).reverse, ?_, ?_, ?_⟩
    · have key : s.data.dropWhile isspaceC = (trim s).data
          ++ ((s.data.dropWhile isspaceC).reverse.takeWhile isspaceC).reverse := by
        calc s.data.dropWhile isspaceC
            = (s.data.dropWhile isspaceC).reverse.reverse :=
              (List.reverse_reverse _).symm
          _ = ((s.data.dropWhile isspaceC).reverse.takeWhile isspaceC
                ++ (s.data.dropWhile isspaceC).reverse.dropWhile isspaceC).reverse := by
              rw [List.takeWhile_append_dropWhile]
          _ = _ := by
              rw [List.reverse_append]
              rfl
      calc s.data
          = s.data.takeWhile isspaceC ++ s.data.dropWhile isspaceC :=
            (List.takeWhile_append_dropWhile isspaceC s.data).symm
        _ = s.data.takeWhile isspaceC
            ++ ((trim s).data
              ++ ((s.data.dropWhile isspaceC).reverse.takeWhile isspaceC).reverse) :=
            congrArg (fun x => s.data.takeWhile isspaceC ++ x) key
        _ = s.data.takeWhile isspaceC ++ (trim s).data
            ++ ((s.data.dropWhile isspaceC).reverse.takeWhile isspaceC).reverse :=
            (List.append_assoc _ _ _).symm
    · exact fun c hc => List.mem_takeWhile_imp hc
    · intro c hc
      rw [List.mem_reverse] at hc
      exact List.mem_takeWhile_imp hc

/-- Closed witness for `trim_idempotent_and_shape`: idempotence on a
concrete string and the all-whitespace case. -/
theorem trim_idempotent_and_shape_witness :
    trim (trim "  ab  ") = trim "  ab  " ∧ trim "   " = "" :=
  ⟨trim_idempotent_and_shape.1 "  ab  ",
    trim_idempotent_and_shape.2.1 "   " (by decide)⟩

/-- printf `%0Wx` applied to an unsigned value of `W` hex digits: exactly
`w` lowercase hexadecimal digits, most significant first (the program only
applies it to values that fit, so no wider output can occur). -/
def hexPad (w n : Nat) : String :=
  String.mk ((List.range w).reverse.map fun i => Nat.digitChar ((n >>> (4 * i)) % 16))

/-- The ASCII single-quote character used by the report's printf formats. -/
def squote : String := (Char.ofNat 39).toString

/-- `hexPad w` always renders exactly `w` characters, as `%0Wx` does on the
program's 32-bit-bounded inputs. -/
theorem hexPad_length (w n : Nat) : (hexPad w n).length = w := by
  simp [hexPad, String.length]

/-- The `die` macro (src/main.c:57): the full line written to the error
stream before `exit(1)`. -/
def dieMsg (msg : String) : String := "FATAL ERROR: " ++ msg ++ "\n"

/-- The `die_dev` macro (src/main.c:59): prepend the device path. -/
def die_dev (path msg : String) : String := dieMsg (path ++ ": " ++ msg)

/-- The `die_dev_errno` macro (src/main.c:61): append errno and its
description. -/
def die_dev_errno (path msg : String) (errno : Nat) (strerrorText : String) :
    String :=
  die_dev path (msg ++ ": " ++ toString errno ++ " " ++ strerrorText)

/-- The header text of `print_cmd_error` (src/main.c:160): the four status
fields, rendered by the formats `0x%02x`, `%u`, `0x%04x`, `0x%08x`. -/
def print_cmd_error_header (info : ErrorInfo_struct) : String :=
  "HPSA SCSI error info:\n\tScsiStatus: 0x" ++ hexPad 2 info.ScsiStatus
    ++ "\n\tSenseLen: " ++ toString info.SenseLen
    ++ "\n\tCommandStatus: 0x" ++ hexPad 4 info.CommandStatus
    ++ "\n\tResidualCnt: 0x" ++ hexPad 8 info.ResidualCnt
    ++ "\n\tSenseInfo:"

/-- The sense portion of `print_cmd_error` (src/main.c:172): with nonzero
sense length, the length is clamped to the buffer's physical capacity and
one ` 0xNN` token is printed per sense byte; with zero sense length the
explicit marker ` <none>` is printed. -/
def print_cmd_error_sense (info : ErrorInfo_struct) : List String :=
  if info.SenseLen ≠ 0 then
    let sense_len :=
      if info.SenseLen > SENSEINFOBYTES then SENSEINFOBYTES else info.SenseLen
    (info.SenseInfo.take sense_len).map fun b => " 0x" ++ hexPad 2 b
  else
    [" <none>"]

/-- C `print_cmd_error` (src/main.c:156): the full stderr text of the
structured dump, ended by the final newline. -/
def print_cmd_error (info : ErrorInfo_struct) : String :=
  print_cmd_error_header info ++ String.join (print_cmd_error_sense info) ++ "\n"

/-- The observable behavior of one `ioctl(CCISS_PASSTHRU)` submission,
which is external to the program: the call's return code, the
`errno`/`strerror` pair in effect when it fails, and the error record the
transport writes into the envelope. -/
structure IoctlBehavior where
  rc : Int
  errno : Nat
  strerrorText : String
  errInfo : ErrorInfo_struct

/-- C `really_exec_cmd` (src/main.c:183): fill the zero-initialized
envelope (an assertion failure in `fill_cmd` aborts: `none`), submit it,
check transport-level status (`rc != 0`), then command-level status
(`error_info.CommandStatus != 0`); each fatal path carries the stderr text
it writes before `exit(1)`. -/
def really_exec_cmd (path : String) (cmd_num : Nat) (cmd_name : String)
    (buf size : Nat) (beh : IoctlBehavior) : Option (Except String Unit) :=
  (fill_cmd zeroCmd cmd_num buf size).map fun _ =>
    if beh.rc ≠ 0 then
      Except.error (die_dev_errno path
        ("ioctl(CCISS_PASSTHRU) failed with command " ++ cmd_name ++ ", rc == "
          ++ toString beh.rc) beh.errno beh.strerrorText)
    else if beh.errInfo.CommandStatus ≠ 0 then
      Except.error (print_cmd_error beh.errInfo
        ++ die_dev path ("Command " ++ cmd_name ++ " failed"))
    else
      Except.ok ()

/-- **C6.** For every command-level failure (the transport call succeeds
but the returned `ErrorInfo` carries a nonzero command status), the error
dump prints the scsi status, sense length, command status and residual
count, followed by exactly `min(sense length, sense buffer capacity)` sense
bytes in hexadecimal when the sense length is nonzero (the length is
clamped to the buffer's physical capacity before reading), and the
explicit marker `<none>` when the sense length is zero; afterwards the
process reports the command name and terminates fatally. -/
theorem really_exec_cmd_command_failure (path cmd_name : String)
    (cmd_num buf size : Nat) (beh : IoctlBehavior)
    (hop : cmd_num = BMIC_IDENTIFY_CONTROLLER ∨
      cmd_num = BMIC_SENSE_CONTROLLER_PARAMETERS)
    (hsize : size ≤ UINT16_MAX)
    (hrc : beh.rc = 0)
    (hcs : beh.errInfo.CommandStatus ≠ 0)
    (hcap : beh.errInfo.SenseInfo.length = SENSEINFOBYTES) :
    really_exec_cmd path cmd_num cmd_name buf size beh
      = some (Except.error (print_cmd_error_header beh.errInfo
          ++ String.join (print_cmd_error_sense beh.errInfo) ++ "\n"
          ++ dieMsg (path ++ ": " ++ ("Command " ++ cmd_name ++ " failed")))) ∧
    (beh.errInfo.SenseLen ≠ 0 →
      print_cmd_error_sense beh.errInfo
        = (beh.errInfo.SenseInfo.take
            (min beh.errInfo.SenseLen SENSEINFOBYTES)).map
            (fun b => " 0x" ++ hexPad 2 b) ∧
      (print_cmd_error_sense beh.errInfo).length
        = min beh.errInfo.SenseLen SENSEINFOBYTES) ∧
    (beh.errInfo.SenseLen = 0 →
      print_cmd_error_sense beh.errInfo = [" <none>"]) := by
  have hif : (if beh.errInfo.SenseLen > SENSEINFOBYTES then SENSEINFOBYTES
      else beh.errInfo.SenseLen) = min beh.errInfo.SenseLen SENSEINFOBYTES := by
    rw [Nat.min_def]
    split <;> split <;> omega
  refine ⟨?_, fun hsl => ⟨?_, ?_⟩, fun hsl => ?_⟩
  · rw [really_exec_cmd, fill_cmd_eq_some zeroCmd cmd_num buf size hop hsize]
    simp [hrc, hcs, print_cmd_error, die_dev, String.append_assoc]
  · simp [print_cmd_error_sense, hsl, hif]
  · simp [print_cmd_error_sense, hsl, hif, hcap]
    try omega
  · simp [print_cmd_error_sense, hsl]

/-- A concrete command-failure error record: sense length 3 on a 32-byte
sense buffer. -/
def senseErrInfo3 : ErrorInfo_struct :=
  { ScsiStatus := 2, SenseLen := 3, CommandStatus := 1, ResidualCnt := 0,
    SenseInfo := List.replicate 32 0xAB }

/-- A concrete transport behavior: the submission succeeds but the device
reports command status 1 with `senseErrInfo3`. -/
def behCmdFail3 : IoctlBehavior :=
  { rc := 0, errno := 0, strerrorText := "", errInfo := senseErrInfo3 }

/-- Closed witness for `really_exec_cmd_command_failure`: a command-level
failure with sense length 3 on a 32-byte sense buffer; the dump shows
exactly 3 hex sense bytes. -/
theorem really_exec_cmd_command_failure_witness :
    (really_exec_cmd "/dev/sg0" BMIC_IDENTIFY_CONTROLLER
        "BMIC_IDENTIFY_CONTROLLER" 7 404 behCmdFail3
      = some (Except.error (print_cmd_error_header behCmdFail3.errInfo
          ++ String.join (print_cmd_error_sense behCmdFail3.errInfo) ++ "\n"
          ++ dieMsg ("/dev/sg0" ++ ": "
            ++ ("Command " ++ "BMIC_IDENTIFY_CONTROLLER" ++ " failed"))))) ∧
    (print_cmd_error_sense behCmdFail3.errInfo).length
      = min behCmdFail3.errInfo.SenseLen SENSEINFOBYTES :=
  ⟨(really_exec_cmd_command_failure "/dev/sg0" "BMIC_IDENTIFY_CONTROLLER"
      BMIC_IDENTIFY_CONTROLLER 7 404 behCmdFail3 (Or.inl rfl) (by decide) rfl
      (by decide) (by decide)).1,
    ((really_exec_cmd_command_failure "/dev/sg0" "BMIC_IDENTIFY_CONTROLLER"
      BMIC_IDENTIFY_CONTROLLER 7 404 behCmdFail3 (Or.inl rfl) (by decide) rfl
      (by decide) (by decide)).2.1 (by decide)).2⟩

/-- Modelled from the spec: fixed width of the vendor id string field
(`VENDOR_ID_LEN`, from the missing header `hpsa.h`; the spec's scenario
shows an 8-character vendor id field). -/
def VENDOR_ID_LEN : Nat := 8

/-- Modelled from the spec: fixed width of the product id string field
(`PRODUCT_ID_LEN`, from the missing header `hpsa.h`). -/
def PRODUCT_ID_LEN : Nat := 16

/-- Modelled from the spec: fixed width of the firmware revision string
fields (`FIRMWARE_REV_LEN`, from the missing header `hpsa.h`). -/
def FIRMWARE_REV_LEN : Nat := 4

/-- Modelled from the spec: fixed width of the software name string field
(`SOFTWARE_NAME_LEN`, from the missing header `hpsa.h`). -/
def SOFTWARE_NAME_LEN : Nat := 64

/-- Modelled from the spec: fixed width of the hardware name string field
(`HARDWARE_NAME_LEN`, from the missing header `hpsa.h`). -/
def HARDWARE_NAME_LEN : Nat := 32

/-- Modelled from the spec: the maximum observed string field width
(`MAX_STR_BUF_LEN`, from the missing header `hpsa.h`); the scratch buffer
is one byte larger. -/
def MAX_STR_BUF_LEN : Nat := 64

/-- C `print_info_str_buf` (src/main.c:239): copy at most `max_str_len`
bytes of the field into a zeroed `MAX_STR_BUF_LEN + 1` scratch buffer
(`strncpy` stops at an embedded terminator, and the zeroed buffer keeps
the result terminated), trim it, and render one `NAME='value'` line
(modelled without the trailing newline). -/
def print_info_str_buf (var_name : String) (str_buf : List Char)
    (max_str_len : Nat) : String :=
  var_name ++ "=" ++ squote
    ++ String.mk (trimChars ((str_buf.take max_str_len).takeWhile
      (fun c => c ≠ Char.ofNat 0)))
    ++ squote

/-- C `print_info_fw_rev` (src/main.c:248): a firmware revision field line. -/
def print_info_fw_rev (var_name : String) (rev_buf : List Char) : String :=
  print_info_str_buf var_name rev_buf FIRMWARE_REV_LEN

/-- C `print_info` (src/main.c:253), the reporting step after both
commands succeeded: the ten stdout lines in program order, one list entry
per printed line (each printf ends the line with a newline). -/
def print_info_report (controller_id : bmic_identify_controller)
    (controller_params : bmic_controller_parameters) : List String :=
  [ print_info_str_buf "VENDOR_ID" controller_id.vendor_id VENDOR_ID_LEN
  , print_info_str_buf "PRODUCT_ID" controller_id.product_id PRODUCT_ID_LEN
  , "BOARD_ID" ++ "=" ++ squote ++ "0x"
      ++ hexPad 8 (le32toh controller_id.board_id) ++ squote
  , print_info_str_buf "SOFTWARE_NAME" controller_params.software_name
      SOFTWARE_NAME_LEN
  , print_info_str_buf "HARDWARE_NAME" controller_params.hardware_name
      HARDWARE_NAME_LEN
  , print_info_fw_rev "RUNNING_FIRM_REV" controller_id.running_firm_rev
  , print_info_fw_rev "ROM_FIRM_REV" controller_id.rom_firm_rev
  , print_info_fw_rev "REC_ROM_INACTIVE_REV" controller_id.rec_rom_inactive_rev
  , "YET_MORE_CONTROLLER_FLAGS" ++ "=" ++ squote ++ "0x"
      ++ hexPad 8 (le32toh controller_id.yet_more_controller_flags) ++ squote
  , "HBA_MODE_SUPPORTED" ++ "="
      ++ toString (is_hba_mode_supported controller_id)
  ]

/-- An all-blank identify record: space-padded string fields, zero
integer fields. -/
def blankIdentify : bmic_identify_controller :=
  { vendor_id := List.replicate VENDOR_ID_LEN ' '
    product_id := List.replicate PRODUCT_ID_LEN ' '
    board_id := [0, 0, 0, 0]
    running_firm_rev := List.replicate FIRMWARE_REV_LEN ' '
    rom_firm_rev := List.replicate FIRMWARE_REV_LEN ' '
    rec_rom_inactive_rev := List.replicate FIRMWARE_REV_LEN ' '
    yet_more_controller_flags := [0, 0, 0, 0] }

/-- An all-blank parameters record. -/
def blankParams : bmic_controller_parameters :=
  { software_name := List.replicate SOFTWARE_NAME_LEN ' '
    hardware_name := List.replicate HARDWARE_NAME_LEN ' ' }

/-- **C3 (counterexample).** The claim says the numeric fields are printed
as `KEY=0xXXXXXXXX` with no quotes; but the program prints
`BOARD_ID='0x%08x'` — the board id line on an all-zero record is
`BOARD_ID='0x00000000'`, with surrounding single quotes, not
`BOARD_ID=0x00000000`. -/
theorem print_info_board_id_is_quoted :
    (print_info_report blankIdentify blankParams).get? 2
        = some ("BOARD_ID=" ++ squote ++ "0x00000000" ++ squote) ∧
    (print_info_report blankIdentify blankParams).get? 2
        ≠ some "BOARD_ID=0x00000000" := by
  constructor
  · rfl
  · decide

/-- **C3 (amended).** For the info action, the report is exactly ten lines
in the fixed order vendor id, product id, board id, software name,
hardware name, running firmware revision, ROM firmware revision,
recovery-ROM-inactive firmware revision, capability flags,
HBA-mode-supported; string fields are printed as `KEY='value'` with the
value trimmed; the numeric fields (board id, capability flags) are
converted from little-endian wire order to host order and printed as
`KEY='0xXXXXXXXX'` (zero-padded 8-digit hexadecimal with a `0x` prefix,
*surrounded by single quotes*); the HBA-mode-supported boolean is rendered
as 0 or 1 (unquoted). -/
theorem print_info_report_format (controller_id : bmic_identify_controller)
    (controller_params : bmic_controller_parameters) :
    (print_info_report controller_id controller_params).length = 10 ∧
    print_info_report controller_id controller_params =
      [ "VENDOR_ID" ++ "=" ++ squote
          ++ String.mk (trimChars ((controller_id.vendor_id.take
            VENDOR_ID_LEN).takeWhile (fun c => c ≠ Char.ofNat 0))) ++ squote
      , "PRODUCT_ID" ++ "=" ++ squote
          ++ String.mk (trimChars ((controller_id.product_id.take
            PRODUCT_ID_LEN).takeWhile (fun c => c ≠ Char.ofNat 0))) ++ squote
      , "BOARD_ID" ++ "=" ++ squote ++ "0x"
          ++ hexPad 8 (le32toh controller_id.board_id) ++ squote
      , "SOFTWARE_NAME" ++ "=" ++ squote
          ++ String.mk (trimChars ((controller_params.software_name.take
            SOFTWARE_NAME_LEN).takeWhile (fun c => c ≠ Char.ofNat 0))) ++ squote
      , "HARDWARE_NAME" ++ "=" ++ squote
          ++ String.mk (trimChars ((controller_params.hardware_name.take
            HARDWARE_NAME_LEN).takeWhile (fun c => c ≠ Char.ofNat 0))) ++ squote
      , "RUNNING_FIRM_REV" ++ "=" ++ squote
          ++ String.mk (trimChars ((controller_id.running_firm_rev.take
            FIRMWARE_REV_LEN).takeWhile (fun c => c ≠ Char.ofNat 0))) ++ squote
      , "ROM_FIRM_REV" ++ "=" ++ squote
          ++ String.mk (trimChars ((controller_id.rom_firm_rev.take
            FIRMWARE_REV_LEN).takeWhile (fun c => c ≠ Char.ofNat 0))) ++ squote
      , "REC_ROM_INACTIVE_REV" ++ "=" ++ squote
          ++ String.mk (trimChars ((controller_id.rec_rom_inactive_rev.take
            FIRMWARE_REV_LEN).takeWhile (fun c => c ≠ Char.ofNat 0))) ++ squote
      , "YET_MORE_CONTROLLER_FLAGS" ++ "=" ++ squote ++ "0x"
          ++ hexPad 8 (le32toh controller_id.yet_more_controller_flags)
          ++ squote
      , "HBA_MODE_SUPPORTED" ++ "="
          ++ toString (is_hba_mode_supported controller_id) ] ∧
    (hexPad 8 (le32toh controller_id.board_id)).length = 8 ∧
    (hexPad 8 (le32toh controller_id.yet_more_controller_flags)).length = 8 ∧
    (is_hba_mode_supported controller_id = 0 ∨
      is_hba_mode_supported controller_id = 1) := by
  refine ⟨rfl, rfl, hexPad_length 8 _, hexPad_length 8 _, ?_⟩
  by_cases h : le32toh controller_id.yet_more_controller_flags
      &&& YET_MORE_CTLR_FLAG_HBA_MODE_SUPP ≠ 0 <;>
    simp [is_hba_mode_supported, h]

/-- The program version string (src/main.c:42). -/
def hpsahba_version : String := "0.0.0"

/-- C `print_help` (src/main.c:64): the help text, written to the error
stream, formatted with the executable name. -/
def print_help_text (exe_name : String) : String :=
  "hpsahba version " ++ hpsahba_version
    ++ ", Copyright (C) 2018  Ivan Mironov <mironov.ivan@gmail.com>\n\nUsage:\n\t"
    ++ exe_name ++ " -h\n\t" ++ exe_name ++ " -v\n\t" ++ exe_name
    ++ " -i /dev/sgN\n\nOptions:\n\t-h\n\t\tPrint this help message and exit.\n\n\t-v\n\t\tPrint version number and exit.\n\n\t-i <device path>\n\t\tGet information about HP Smart Array controller.\n"

/-- C `print_version` (src/main.c:88): the version line, written to
stdout. -/
def print_version_out : String := hpsahba_version ++ "\n"

/-- `enum cli_action` (src/main.c:283). -/
inductive cli_action where
  | ACTION_HELP
  | ACTION_VERSION
  | ACTION_INFO
  | ACTION_UNKNOWN
deriving DecidableEq

/-- One option event as `getopt(argc, argv, ":hvi:")` yields it to the
parsing loop of `main`: a recognized option (`-i` with its argument), an
unknown option (`?`), or an option with a missing argument (`:`). -/
inductive OptEvent where
  | oh
  | ov
  | oi (path : String)
  | unknownOpt (c : Char)
  | missingArg (c : Char)
deriving DecidableEq

/-- Whether an event is one of the three recognized options. -/
def OptEvent.isActionOpt : OptEvent → Bool
  | .oh => true
  | .ov => true
  | .oi _ => true
  | .unknownOpt _ => false
  | .missingArg _ => false

/-- The option-parsing loop of `main` (src/main.c:299): fold over the
getopt events; each action option overwrites `action` (so the last one
parsed wins) and `-i` also records the device path; unknown options and
missing arguments die immediately with the option character. -/
def parse_opts : List OptEvent → cli_action → Option String →
    Except String (cli_action × Option String)
  | [], action, path => Except.ok (action, path)
  | e :: rest, _action, path =>
    match e with
    | .oh => parse_opts rest .ACTION_HELP path
    | .ov => parse_opts rest .ACTION_VERSION path
    | .oi p => parse_opts rest .ACTION_INFO (some p)
    | .unknownOpt c => Except.error (dieMsg ("Unknown command line option: "
        ++ squote ++ String.mk [c] ++ squote ++ ", try running with -h"))
    | .missingArg c => Except.error (dieMsg ("Missing argument for option "
        ++ squote ++ String.mk [c] ++ squote ++ ", try running with -h"))

/-- The external platform behavior of one invocation: the `open(2)` result
(`none` models failure, with the errno/strerror pair then in effect), the
transport behavior of each of the two commands, the decoded response
records the transport writes into the buffers on success, and the
`close(2)` result. -/
structure PlatformEnv where
  openFd : Option Nat
  openErrno : Nat
  openStrerror : String
  identifyBeh : IoctlBehavior
  senseBeh : IoctlBehavior
  identifyData : bmic_identify_controller
  senseData : bmic_controller_parameters
  closeRet : Int
  closeErrno : Nat
  closeStrerror : String

/-- C `open_dev` (src/main.c:93): open the device read-write, dying with
the path and `Unable to open device r/w` plus errno detail on failure. -/
def open_dev (path : String) (env : PlatformEnv) : Except String Nat :=
  match env.openFd with
  | some fd => Except.ok fd
  | none => Except.error (die_dev_errno path "Unable to open device r/w"
      env.openErrno env.openStrerror)

/-- C `close_dev` (src/main.c:102): close the device, dying with errno
detail on failure. -/
def close_dev (path : String) (env : PlatformEnv) : Except String Unit :=
  if env.closeRet ≠ 0 then
    Except.error (die_dev_errno path "close() failed" env.closeErrno
      env.closeStrerror)
  else
    Except.ok ()

/-- Modelled from the spec: the byte size of the identify-controller
response record (`sizeof(struct bmic_identify_controller)`, layout from
the missing header `hpsa.h`); any value within the CDB's 16-bit bound,
modelled as 404. -/
def sizeof_bmic_identify_controller : Nat := 404

/-- Modelled from the spec: the byte size of the controller-parameters
response record (`sizeof(struct bmic_controller_parameters)`, layout from
the missing header `hpsa.h`); any value within the CDB's 16-bit bound,
modelled as 432. -/
def sizeof_bmic_controller_parameters : Nat := 432

/-- C `identify_controller` (src/main.c:205): execute the identify command
into the identify record's buffer (buffer id 1). -/
def identify_controller (path : String) (env : PlatformEnv) :
    Option (Except String Unit) :=
  really_exec_cmd path BMIC_IDENTIFY_CONTROLLER "BMIC_IDENTIFY_CONTROLLER" 1
    sizeof_bmic_identify_controller env.identifyBeh

/-- C `sense_controller_parameters` (src/main.c:219): execute the
parameters command into the parameters record's buffer (buffer id 2). -/
def sense_controller_parameters (path : String) (env : PlatformEnv) :
    Option (Except String Unit) :=
  really_exec_cmd path BMIC_SENSE_CONTROLLER_PARAMETERS
    "BMIC_SENSE_CONTROLLER_PARAMETERS" 2
    sizeof_bmic_controller_parameters env.senseBeh

/-- C `print_info` (src/main.c:253): run the identify then the parameters
command (each can die fatally; `none` would model an assertion abort,
which the hardcoded recognized opcodes make unreachable), then render the
ten-line report from the decoded records. All printing happens after both
commands succeeded. -/
def print_info (path : String) (env : PlatformEnv) :
    Option (Except String (List String)) :=
  match identify_controller path env with
  | none => none
  | some (Except.error e) => some (Except.error e)
  | some (Except.ok ()) =>
    match sense_controller_parameters path env with
    | none => none
    | some (Except.error e) => some (Except.error e)
    | some (Except.ok ()) =>
      some (Except.ok (print_info_report env.identifyData env.senseData))

/-- The observable outcome of one program invocation: the exit status with
the full stdout and stderr text. -/
inductive ProcResult where
  | exit0 (stdout stderr : String)
  | exit1 (stdout stderr : String)
deriving DecidableEq

/-- The action dispatch of `main` (src/main.c:335): the (stdout, stderr)
pair the selected action produces, or the fatal stderr text. Help goes to
the error stream, version to stdout, info runs the core pipeline, no
selected action dies. (In the program the info action always has a path;
the model totalizes with `""`.) -/
def run_action (action : cli_action) (path : Option String)
    (exe_name : String) (env : PlatformEnv) :
    Option (Except String (String × String)) :=
  match action with
  | .ACTION_HELP => some (Except.ok ("", print_help_text exe_name))
  | .ACTION_VERSION => some (Except.ok (print_version_out, ""))
  | .ACTION_INFO =>
    match print_info (path.getD "") env with
    | none => none
    | some (Except.error e) => some (Except.error e)
    | some (Except.ok lines) =>
      some (Except.ok (String.join (lines.map (fun l => l ++ "\n")), ""))
  | .ACTION_UNKNOWN =>
    some (Except.error (dieMsg "No option selected, try running with -h"))

/-- C `main` (src/main.c:291): parse options (dying on parse errors),
reject extra positional arguments (`extra_args` models `argc > optind`),
open the device exactly when a path was captured by `-i`, dispatch on the
finally selected action, close the device exactly when it was opened, and
exit 0. Every fatal path yields exit status 1 carrying the stdout produced
so far and the stderr text; `none` would model an assertion abort. -/
def c_main (events : List OptEvent) (extra_args : Bool) (exe_name : String)
    (env : PlatformEnv) : Option ProcResult :=
  match parse_opts events .ACTION_UNKNOWN none with
  | Except.error e => some (ProcResult.exit1 "" e)
  | Except.ok (action, path) =>
    if extra_args then
      some (ProcResult.exit1 ""
        (dieMsg "Invalid argument in command line, try running with -h"))
    else
      match path with
      | some p =>
        match open_dev p env with
        | Except.error e => some (ProcResult.exit1 "" e)
        | Except.ok _fd =>
          match run_action action (some p) exe_name env with
          | none => none
          | some (Except.error e) => some (ProcResult.exit1 "" e)
          | some (Except.ok (out, err)) =>
            match close_dev p env with
            | Except.error e => some (ProcResult.exit1 out (err ++ e))
            | Except.ok () => some (ProcResult.exit0 out err)
      | none =>
        match run_action action none exe_name env with
        | none => none
        | some (Except.error e) => some (ProcResult.exit1 "" e)
        | some (Except.ok (out, err)) => some (ProcResult.exit0 out err)

/-- Appending to the empty string is the identity. -/
theorem empty_append_str (s : String) : "" ++ s = s := by
  obtain ⟨l⟩ := s
  rfl

/-- The status checks of `really_exec_cmd` (src/main.c:190): transport
failure, then command failure, then success. -/
def cmd_status_result (path cmd_name : String) (beh : IoctlBehavior) :
    Except String Unit :=
  if beh.rc ≠ 0 then
    Except.error (die_dev_errno path
      ("ioctl(CCISS_PASSTHRU) failed with command " ++ cmd_name ++ ", rc == "
        ++ toString beh.rc) beh.errno beh.strerrorText)
  else if beh.errInfo.CommandStatus ≠ 0 then
    Except.error (print_cmd_error beh.errInfo
      ++ die_dev path ("Command " ++ cmd_name ++ " failed"))
  else
    Except.ok ()

/-- On a recognized opcode within the size bound, `really_exec_cmd` does
not abort and reduces to its status checks. -/
theorem really_exec_cmd_eq (path cmd_name : String) (cmd_num buf size : Nat)
    (beh : IoctlBehavior)
    (hop : cmd_num = BMIC_IDENTIFY_CONTROLLER ∨
      cmd_num = BMIC_SENSE_CONTROLLER_PARAMETERS)
    (hsize : size ≤ UINT16_MAX) :
    really_exec_cmd path cmd_num cmd_name buf size beh
      = some (cmd_status_result path cmd_name beh) := by
  rw [really_exec_cmd, fill_cmd_eq_some zeroCmd cmd_num buf size hop hsize]
  rfl

/-- `identify_controller` reduced to its status checks. -/
theorem identify_controller_eq (path : String) (env : PlatformEnv) :
    identify_controller path env
      = some (cmd_status_result path "BMIC_IDENTIFY_CONTROLLER"
          env.identifyBeh) := by
  rw [identify_controller, really_exec_cmd_eq _ _ _ _ _ _ (Or.inl rfl) (by decide)]

/-- `sense_controller_parameters` reduced to its status checks. -/
theorem sense_controller_parameters_eq (path : String) (env : PlatformEnv) :
    sense_controller_parameters path env
      = some (cmd_status_result path "BMIC_SENSE_CONTROLLER_PARAMETERS"
          env.senseBeh) := by
  rw [sense_controller_parameters,
    really_exec_cmd_eq _ _ _ _ _ _ (Or.inr rfl) (by decide)]

/-- Every `die_dev_errno` text is a `FATAL ERROR` line. -/
theorem die_dev_errno_fatal (path msg : String) (errno : Nat) (s : String) :
    ∃ pre m, die_dev_errno path msg errno s = pre ++ dieMsg m :=
  ⟨"", path ++ ": " ++ (msg ++ ": " ++ toString errno ++ " " ++ s),
    (empty_append_str _).symm⟩

/-- Every `dieMsg` text is a `FATAL ERROR` line. -/
theorem dieMsg_fatal (m : String) : ∃ pre m2, dieMsg m = pre ++ dieMsg m2 :=
  ⟨"", m, (empty_append_str _).symm⟩

/-- Every fatal text of the status checks contains a `FATAL ERROR` line. -/
theorem cmd_status_result_error_shape (path cmd_name : String)
    (beh : IoctlBehavior) (e : String)
    (h : cmd_status_result path cmd_name beh = Except.error e) :
    ∃ pre m, e = pre ++ dieMsg m := by
  rw [cmd_status_result] at h
  by_cases hrc : beh.rc ≠ 0
  · rw [if_pos hrc] at h
    have h2 : e = die_dev_errno path
        ("ioctl(CCISS_PASSTHRU) failed with command " ++ cmd_name ++ ", rc == "
          ++ toString beh.rc) beh.errno beh.strerrorText :=
      ((Except.error.injEq _ _).mp h).symm
    rw [h2]
    exact die_dev_errno_fatal _ _ _ _
  · rw [if_neg hrc] at h
    by_cases hcs : beh.errInfo.CommandStatus ≠ 0
    · rw [if_pos hcs] at h
      have h2 : e = print_cmd_error beh.errInfo
          ++ die_dev path ("Command " ++ cmd_name ++ " failed") :=
        ((Except.error.injEq _ _).mp h).symm
      rw [h2]
      exact ⟨print_cmd_error beh.errInfo,
        path ++ ": " ++ ("Command " ++ cmd_name ++ " failed"), rfl⟩
    · rw [if_neg hcs] at h
      exact absurd h (by simp)

/-- `print_info` never aborts, and its fatal texts contain a `FATAL ERROR`
line. -/
theorem print_info_shape (path : String) (env : PlatformEnv) :
    (print_info path env ≠ none) ∧
    (∀ e, print_info path env = some (Except.error e) →
      ∃ pre m, e = pre ++ dieMsg m) := by
  rw [print_info, identify_controller_eq, sense_controller_parameters_eq]
  rcases h1 : cmd_status_result path "BMIC_IDENTIFY_CONTROLLER"
      env.identifyBeh with e1 | u1
  · exact ⟨by simp, fun e he => by
      simp at he
      exact he ▸ cmd_status_result_error_shape _ _ _ _ h1⟩
  · rcases h2 : cmd_status_result path "BMIC_SENSE_CONTROLLER_PARAMETERS"
        env.senseBeh with e2 | u2
    · exact ⟨by simp, fun e he => by
        simp at he
        exact he ▸ cmd_status_result_error_shape _ _ _ _ h2⟩
    · exact ⟨by simp, fun e he => by simp at he⟩

/-- `run_action` never aborts, and its fatal texts contain a `FATAL ERROR`
line. -/
theorem run_action_shape (action : cli_action) (path : Option String)
    (exe_name : String) (env : PlatformEnv) :
    (run_action action path exe_name env ≠ none) ∧
    (∀ e, run_action action path exe_name env = some (Except.error e) →
      ∃ pre m, e = pre ++ dieMsg m) := by
  cases action with
  | ACTION_HELP => exact ⟨by simp [run_action], fun e he => by
      simp [run_action] at he⟩
  | ACTION_VERSION => exact ⟨by simp [run_action], fun e he => by
      simp [run_action] at he⟩
  | ACTION_INFO =>
    have hs := print_info_shape (path.getD "") env
    rw [run_action]
    rcases hpi : print_info (path.getD "") env with _ | r
    · exact absurd hpi hs.1
    · rcases r with e1 | lines
      · exact ⟨by simp, fun e he => by
          simp at he
          exact he ▸ hs.2 e1 hpi⟩
      · exact ⟨by simp, fun e he => by simp at he⟩
  | ACTION_UNKNOWN =>
    refine ⟨by simp [run_action], fun e he => ?_⟩
    simp [run_action] at he
    rw [← he]
    exact dieMsg_fatal _

/-- Every fatal text of the option-parsing loop is a `FATAL ERROR` line. -/
theorem parse_opts_error_shape (evs : List OptEvent) :
    ∀ (a : cli_action) (p : Option String) (e : String),
      parse_opts evs a p = Except.error e → ∃ m, e = dieMsg m := by
  induction evs with
  | nil =>
    intro a p e h
    simp [parse_opts] at h
  | cons ev rest ih =>
    intro a p e h
    cases ev with
    | oh => exact ih _ _ _ h
    | ov => exact ih _ _ _ h
    | oi q => exact ih _ _ _ h
    | unknownOpt c =>
      simp [parse_opts] at h
      exact ⟨_, h.symm⟩
    | missingArg c =>
      simp [parse_opts] at h
      exact ⟨_, h.symm⟩

/-- A successful transport behavior: submission returns 0 and the device
reports command status 0. -/
def behOK : IoctlBehavior :=
  { rc := 0
    errno := 0
    strerrorText := ""
    errInfo :=
      { ScsiStatus := 0, SenseLen := 0, CommandStatus := 0, ResidualCnt := 0,
        SenseInfo := List.replicate 32 0 } }

/-- A platform where opening the device fails with ENOENT. -/
def envOpenFail : PlatformEnv :=
  { openFd := none, openErrno := 2, openStrerror := "No such file or directory",
    identifyBeh := behOK, senseBeh := behOK, identifyData := blankIdentify,
    senseData := blankParams, closeRet := 0, closeErrno := 0,
    closeStrerror := "" }

/-- A platform where everything succeeds. -/
def envAllOK : PlatformEnv :=
  { openFd := some 3, openErrno := 0, openStrerror := "",
    identifyBeh := behOK, senseBeh := behOK, identifyData := blankIdentify,
    senseData := blankParams, closeRet := 0, closeErrno := 0,
    closeStrerror := "" }

/-- A platform where everything succeeds except the final `close(2)`. -/
def envCloseFail : PlatformEnv :=
  { openFd := some 3, openErrno := 0, openStrerror := "",
    identifyBeh := behOK, senseBeh := behOK, identifyData := blankIdentify,
    senseData := blankParams, closeRet := -1, closeErrno := 9,
    closeStrerror := "Bad file descriptor" }

/-- **C7.** The process exits 0 exactly when the requested action (help,
version, or a completed info report) succeeds, and exits 1 on every fatal
condition after writing a line beginning with `FATAL ERROR: ` to the error
stream: an invocation with no action flag exits 1 with the message
`No option selected`, a failed device open exits 1 with a message
containing the device path and `Unable to open device r/w`, help and
version exit 0, a fully successful info run exits 0 with the report, and
every invocation either exits 0 or exits 1 with a `FATAL ERROR: ` line on
the error stream. -/
theorem c_main_exit_contract :
    (∀ exe env, c_main [] false exe env
      = some (ProcResult.exit1 ""
          (dieMsg "No option selected, try running with -h"))) ∧
    (∀ exe env p, env.openFd = none →
      c_main [OptEvent.oi p] false exe env
        = some (ProcResult.exit1 ""
            (die_dev_errno p "Unable to open device r/w" env.openErrno
              env.openStrerror))) ∧
    (∀ exe env, c_main [OptEvent.oh] false exe env
      = some (ProcResult.exit0 "" (print_help_text exe))) ∧
    (∀ exe env, c_main [OptEvent.ov] false exe env
      = some (ProcResult.exit0 print_version_out "")) ∧
    (∀ exe env p fd, env.openFd = some fd →
      env.identifyBeh.rc = 0 → env.identifyBeh.errInfo.CommandStatus = 0 →
      env.senseBeh.rc = 0 → env.senseBeh.errInfo.CommandStatus = 0 →
      env.closeRet = 0 →
      c_main [OptEvent.oi p] false exe env
        = some (ProcResult.exit0
            (String.join ((print_info_report env.identifyData
              env.senseData).map (fun l => l ++ "\n"))) "")) ∧
    (∀ events extra exe env,
      (∃ out err, c_main events extra exe env
        = some (ProcResult.exit0 out err)) ∨
      (∃ out err, c_main events extra exe env
          = some (ProcResult.exit1 out err) ∧
        ∃ pre m, err = pre ++ dieMsg m)) := by
  refine ⟨fun exe env => ?_, fun exe env p hopen => ?_, fun exe env => ?_,
    fun exe env => ?_, fun exe env p fd hopen h1 h2 h3 h4 hclose => ?_,
    fun events extra exe env => ?_⟩
  · simp [c_main, parse_opts, run_action]
  · simp [c_main, parse_opts, open_dev, hopen]
  · simp [c_main, parse_opts, run_action]
  · simp [c_main, parse_opts, run_action]
  · simp [c_main, parse_opts, open_dev, hopen, run_action, print_info,
      identify_controller_eq, sense_controller_parameters_eq,
      cmd_status_result, h1, h2, h3, h4, close_dev, hclose]
  · rcases hp : parse_opts events .ACTION_UNKNOWN none with e | ⟨action, path⟩
    · right
      refine ⟨"", e, by simp [c_main, hp], ?_⟩
      obtain ⟨m, hm⟩ := parse_opts_error_shape events _ _ _ hp
      exact ⟨"", m, by rw [hm, empty_append_str]⟩
    · by_cases hex : extra
      · right
        exact ⟨"", dieMsg "Invalid argument in command line, try running with -h",
          by simp [c_main, hp, hex], dieMsg_fatal _⟩
      · cases path with
        | none =>
          rcases hra : run_action action none exe env with _ | r
          · exact absurd hra (run_action_shape action none exe env).1
          · rcases r with e | ⟨out, err⟩
            · right
              exact ⟨"", e, by simp [c_main, hp, hex, hra],
                (run_action_shape action none exe env).2 e hra⟩
            · left
              exact ⟨out, err, by simp [c_main, hp, hex, hra]⟩
        | some p =>
          rcases ho : open_dev p env with e | fd
          · right
            have hshape : ∃ pre m, e = pre ++ dieMsg m := by
              rw [open_dev] at ho
              cases hof : env.openFd with
              | some fd2 => rw [hof] at ho; simp at ho
              | none =>
                rw [hof] at ho
                simp at ho
                rw [← ho]
                exact die_dev_errno_fatal _ _ _ _
            exact ⟨"", e, by simp [c_main, hp, hex, ho], hshape⟩
          · rcases hra : run_action action (some p) exe env with _ | r
            · exact absurd hra (run_action_shape action (some p) exe env).1
            · rcases r with e | ⟨out, err⟩
              · right
                exact ⟨"", e, by simp [c_main, hp, hex, ho, hra],
                  (run_action_shape action (some p) exe env).2 e hra⟩
              · rcases hc : close_dev p env with ce | u
                · right
                  have hcshape : ∃ pre m, ce = pre ++ dieMsg m := by
                    rw [close_dev] at hc
                    by_cases hcr : env.closeRet ≠ 0
                    · rw [if_pos hcr] at hc
                      simp at hc
                      rw [← hc]
                      exact die_dev_errno_fatal _ _ _ _
                    · rw [if_neg hcr] at hc
                      simp at hc
                  refine ⟨out, err ++ ce,
                    by simp [c_main, hp, hex, ho, hra, hc], ?_⟩
                  obtain ⟨pre, m, hm⟩ := hcshape
                  exact ⟨err ++ pre, m, by rw [hm, ← String.append_assoc]⟩
                · left
                  exact ⟨out, err, by simp [c_main, hp, hex, ho, hra, hc]⟩

/-- Closed witness for `c_main_exit_contract`: a failed open on a
nonexistent device reports the path and exits 1, and a fully successful
info invocation exits 0 with the report on stdout. -/
theorem c_main_exit_contract_witness :
    c_main [OptEvent.oi "/dev/sg9"] false "hpsahba" envOpenFail
      = some (ProcResult.exit1 ""
          (die_dev_errno "/dev/sg9" "Unable to open device r/w" 2
            "No such file or directory")) ∧
    c_main [OptEvent.oi "/dev/sg0"] false "hpsahba" envAllOK
      = some (ProcResult.exit0
          (String.join ((print_info_report blankIdentify blankParams).map
            (fun l => l ++ "\n"))) "") :=
  ⟨c_main_exit_contract.2.1 "hpsahba" envOpenFail "/dev/sg9" (by rfl),
    c_main_exit_contract.2.2.2.2.1 "hpsahba" envAllOK "/dev/sg0" 3 (by rfl)
      (by rfl) (by rfl) (by rfl) (by rfl) (by rfl)⟩

/-- **C8 (counterexample).** The claim says no fatal exit with status 1
occurs after the requested action's result has been fully produced; but
when the final `close(2)` fails after a successful info run, the complete
ten-line report has already been written to stdout and the process still
exits 1 with the close failure message. -/
theorem c_main_fatal_after_full_report :
    c_main [OptEvent.oi "/dev/sg0"] false "hpsahba" envCloseFail
      = some (ProcResult.exit1
          (String.join ((print_info_report blankIdentify blankParams).map
            (fun l => l ++ "\n")))
          (die_dev_errno "/dev/sg0" "close() failed" 9
            "Bad file descriptor")) ∧
    String.join ((print_info_report blankIdentify blankParams).map
      (fun l => l ++ "\n")) ≠ "" := by
  constructor
  · rfl
  · decide

/-- **C8 (amended).** Every fatal condition is terminal with no retry and
no recovery, and a fatal exit with status 1 after the requested action's
result has been fully produced happens only through a failing device
close: whenever the process exits 1 with nonempty stdout, the error
stream carries the `close() failed` message. -/
theorem c_main_fatal_after_result_only_close (events : List OptEvent)
    (extra : Bool) (exe : String) (env : PlatformEnv) (out err : String)
    (h : c_main events extra exe env = some (ProcResult.exit1 out err))
    (hout : out ≠ "") :
    ∃ p pre, err = pre
      ++ die_dev_errno p "close() failed" env.closeErrno env.closeStrerror := by
  rcases hp : parse_opts events .ACTION_UNKNOWN none with e | ⟨action, path⟩
  · simp [c_main, hp] at h
    exact absurd h.1.symm hout
  · by_cases hex : extra
    · simp [c_main, hp, hex] at h
      exact absurd h.1.symm hout
    · cases path with
      | none =>
        rcases hra : run_action action none exe env with _ | r
        · exact absurd hra (run_action_shape action none exe env).1
        · rcases r with e | ⟨out2, err2⟩
          · simp [c_main, hp, hex, hra] at h
            exact absurd h.1.symm hout
          · simp [c_main, hp, hex, hra] at h
      | some p =>
        rcases ho : open_dev p env with e | fd
        · simp [c_main, hp, hex, ho] at h
          exact absurd h.1.symm hout
        · rcases hra : run_action action (some p) exe env with _ | r
          · exact absurd hra (run_action_shape action (some p) exe env).1
          · rcases r with e | ⟨out2, err2⟩
            · simp [c_main, hp, hex, ho, hra] at h
              exact absurd h.1.symm hout
            · rcases hc : close_dev p env with ce | u
              · simp [c_main, hp, hex, ho, hra, hc] at h
                have hce : ce = die_dev_errno p "close() failed"
                    env.closeErrno env.closeStrerror := by
                  rw [close_dev] at hc
                  by_cases hcr : env.closeRet ≠ 0
                  · rw [if_pos hcr] at hc
                    exact ((Except.error.injEq _ _).mp hc).symm
                  · rw [if_neg hcr] at hc
                    simp at hc
                exact ⟨p, err2, by rw [← h.2, hce]⟩
              · simp [c_main, hp, hex, ho, hra, hc] at h

/-- Closed witness for `c_main_fatal_after_result_only_close` at the
close-failure run of `envCloseFail`. -/
theorem c_main_fatal_after_result_only_close_witness :
    ∃ p pre,
      die_dev_errno "/dev/sg0" "close() failed" 9 "Bad file descriptor"
        = pre ++ die_dev_errno p "close() failed" envCloseFail.closeErrno
            envCloseFail.closeStrerror :=
  c_main_fatal_after_result_only_close [OptEvent.oi "/dev/sg0"] false
    "hpsahba" envCloseFail
    (String.join ((print_info_report blankIdentify blankParams).map
      (fun l => l ++ "\n")))
    (die_dev_errno "/dev/sg0" "close() failed" 9 "Bad file descriptor")
    (by rfl) (by decide)

/-- The action selected after the parsing loop of `main` (src/main.c:299)
processes a list of option events starting from `a`: each recognized
option overwrites the action, so the last one parsed wins (the error
events never reach an action update — the loop dies first). -/
def selected_action : List OptEvent → cli_action → cli_action
  | [], a => a
  | OptEvent.oh :: rest, _ => selected_action rest .ACTION_HELP
  | OptEvent.ov :: rest, _ => selected_action rest .ACTION_VERSION
  | OptEvent.oi _ :: rest, _ => selected_action rest .ACTION_INFO
  | OptEvent.unknownOpt _ :: rest, a => selected_action rest a
  | OptEvent.missingArg _ :: rest, a => selected_action rest a

/-- The device path captured after the parsing loop of `main`
(src/main.c:312) processes a list of option events starting from `p`:
only `-i` writes it, and nothing ever clears it. -/
def captured_path : List OptEvent → Option String → Option String
  | [], p => p
  | OptEvent.oi q :: rest, _ => captured_path rest (some q)
  | OptEvent.oh :: rest, p => captured_path rest p
  | OptEvent.ov :: rest, p => captured_path rest p
  | OptEvent.unknownOpt _ :: rest, p => captured_path rest p
  | OptEvent.missingArg _ :: rest, p => captured_path rest p

/-- On recognized option events the parsing loop succeeds and returns the
finally selected action and the captured path. -/
theorem parse_opts_characterization :
    ∀ (evs : List OptEvent), (∀ e ∈ evs, e.isActionOpt = true) →
    ∀ (a : cli_action) (p : Option String),
      parse_opts evs a p
        = Except.ok (selected_action evs a, captured_path evs p) := by
  intro evs
  induction evs with
  | nil =>
    intro _ a p
    rfl
  | cons ev rest ih =>
    intro hgood a p
    have hgr : ∀ e ∈ rest, e.isActionOpt = true :=
      fun e he => hgood e (List.mem_cons_of_mem _ he)
    have hev := hgood ev (List.mem_cons_self _ _)
    cases ev with
    | oh => exact ih hgr _ _
    | ov => exact ih hgr _ _
    | oi q => exact ih hgr _ _
    | unknownOpt c => simp [OptEvent.isActionOpt] at hev
    | missingArg c => simp [OptEvent.isActionOpt] at hev

/-- The selected action over an appended event list is the selection over
the tail started from the selection over the head list: the last action
flag parsed wins. -/
theorem selected_action_append :
    ∀ (xs ys : List OptEvent) (a : cli_action),
      selected_action (xs ++ ys) a = selected_action ys (selected_action xs a) := by
  intro xs
  induction xs with
  | nil => intro ys a; rfl
  | cons e rest ih =>
    intro ys a
    cases e with
    | oh => exact ih _ _
    | ov => exact ih _ _
    | oi q => exact ih _ _
    | unknownOpt c => exact ih _ _
    | missingArg c => exact ih _ _

/-- Once a path is captured, no later event clears it. -/
theorem captured_path_some :
    ∀ (evs : List OptEvent) (x : String),
      ∃ r, captured_path evs (some x) = some r := by
  intro evs
  induction evs with
  | nil => intro x; exact ⟨x, rfl⟩
  | cons e rest ih =>
    intro x
    cases e with
    | oh => exact ih x
    | ov => exact ih x
    | oi q => exact ih q
    | unknownOpt c => exact ih x
    | missingArg c => exact ih x

/-- If `-i <path>` appears anywhere among the events, a path is captured. -/
theorem captured_path_of_mem :
    ∀ (evs : List OptEvent) (q : String) (p : Option String),
      OptEvent.oi q ∈ evs → ∃ r, captured_path evs p = some r := by
  intro evs
  induction evs with
  | nil =>
    intro q p h
    simp at h
  | cons e rest ih =>
    intro q p h
    cases e with
    | oi w => exact captured_path_some rest w
    | oh =>
      rcases List.mem_cons.mp h with h1 | h2
      · exact absurd h1 (by simp)
      · exact ih q p h2
    | ov =>
      rcases List.mem_cons.mp h with h1 | h2
      · exact absurd h1 (by simp)
      · exact ih q p h2
    | unknownOpt c =>
      rcases List.mem_cons.mp h with h1 | h2
      · exact absurd h1 (by simp)
      · exact ih q p h2
    | missingArg c =>
      rcases List.mem_cons.mp h with h1 | h2
      · exact absurd h1 (by simp)
      · exact ih q p h2

/-- **C10.** For every invocation whose recognized arguments include
`-i <path>`: the parse yields the finally selected action and the captured
path; the action acted upon is the last one parsed, whichever flag comes
last (`-h`, `-v` or `-i`); a path is captured and later flags do not clear
it; the device is opened read-write, keyed on the captured path and not on
the final action, so a failed open is fatal whatever the final action; and
with a successful open the device is closed before exit even when the
finally selected action is help or version (a failed close is fatal after
the action's output, a successful close exits 0). -/
theorem c_main_opens_device_with_i_flag (evs : List OptEvent)
    (hgood : ∀ e ∈ evs, e.isActionOpt = true)
    (q : String) (hq : OptEvent.oi q ∈ evs)
    (exe : String) (env : PlatformEnv) :
    parse_opts evs .ACTION_UNKNOWN none
      = Except.ok (selected_action evs .ACTION_UNKNOWN,
          captured_path evs none) ∧
    (∀ (evs2 : List OptEvent) (a : cli_action),
      selected_action (evs2 ++ [OptEvent.oh]) a = .ACTION_HELP) ∧
    (∀ (evs2 : List OptEvent) (a : cli_action),
      selected_action (evs2 ++ [OptEvent.ov]) a = .ACTION_VERSION) ∧
    (∀ (evs2 : List OptEvent) (a : cli_action) (r : String),
      selected_action (evs2 ++ [OptEvent.oi r]) a = .ACTION_INFO) ∧
    (∃ r, captured_path evs none = some r) ∧
    (∀ r, captured_path evs none = some r → env.openFd = none →
      c_main evs false exe env
        = some (ProcResult.exit1 ""
            (die_dev_errno r "Unable to open device r/w" env.openErrno
              env.openStrerror))) ∧
    (∀ r fd, captured_path evs none = some r → env.openFd = some fd →
      selected_action evs .ACTION_UNKNOWN = .ACTION_HELP →
      (env.closeRet ≠ 0 →
        c_main evs false exe env
          = some (ProcResult.exit1 ""
              (print_help_text exe
                ++ die_dev_errno r "close() failed" env.closeErrno
                  env.closeStrerror))) ∧
      (env.closeRet = 0 →
        c_main evs false exe env
          = some (ProcResult.exit0 "" (print_help_text exe)))) ∧
    (∀ r fd, captured_path evs none = some r → env.openFd = some fd →
      selected_action evs .ACTION_UNKNOWN = .ACTION_VERSION →
      (env.closeRet ≠ 0 →
        c_main evs false exe env
          = some (ProcResult.exit1 print_version_out
              (die_dev_errno r "close() failed" env.closeErrno
                env.closeStrerror))) ∧
      (env.closeRet = 0 →
        c_main evs false exe env
          = some (ProcResult.exit0 print_version_out ""))) := by
  have hp := parse_opts_characterization evs hgood .ACTION_UNKNOWN none
  refine ⟨hp,
    fun evs2 a => by rw [selected_action_append]; rfl,
    fun evs2 a => by rw [selected_action_append]; rfl,
    fun evs2 a r => by rw [selected_action_append]; rfl,
    captured_path_of_mem evs q none hq,
    fun r hr hopen => ?_,
    fun r fd hr hopen hA => ⟨fun hclose => ?_, fun hclose => ?_⟩,
    fun r fd hr hopen hA => ⟨fun hclose => ?_, fun hclose => ?_⟩⟩
  · simp [c_main, hp, hr, open_dev, hopen]
  · simp [c_main, hp, hr, hA, open_dev, hopen, run_action, close_dev, hclose]
  · simp [c_main, hp, hr, hA, open_dev, hopen, run_action, close_dev, hclose]
  · simp [c_main, hp, hr, hA, open_dev, hopen, run_action, close_dev, hclose,
      empty_append_str]
  · simp [c_main, hp, hr, hA, open_dev, hopen, run_action, close_dev, hclose]

/-- Closed witness for `c_main_opens_device_with_i_flag`:
`-i /dev/sg0 -v` on the close-failing platform — the finally selected
action is version (the last flag parsed), the path stays captured, and the
run still opens and closes the device: the close failure is fatal after
the version output. -/
theorem c_main_opens_device_with_i_flag_witness :
    parse_opts [OptEvent.oi "/dev/sg0", OptEvent.ov] .ACTION_UNKNOWN none
      = Except.ok (cli_action.ACTION_VERSION, some "/dev/sg0") ∧
    c_main [OptEvent.oi "/dev/sg0", OptEvent.ov] false "hpsahba" envCloseFail
      = some (ProcResult.exit1 print_version_out
          (die_dev_errno "/dev/sg0" "close() failed" envCloseFail.closeErrno
            envCloseFail.closeStrerror)) :=
  ⟨(c_main_opens_device_with_i_flag [OptEvent.oi "/dev/sg0", OptEvent.ov]
      (by decide) "/dev/sg0" (by decide) "hpsahba" envCloseFail).1,
    ((c_main_opens_device_with_i_flag [OptEvent.oi "/dev/sg0", OptEvent.ov]
      (by decide) "/dev/sg0" (by decide) "hpsahba"
      envCloseFail).2.2.2.2.2.2.2 "/dev/sg0" 3 rfl rfl rfl).1 (by decide)⟩
